import Mathlib

/-!
Verification of the slider-CAPTCHA service core
(`captcha-service/main.py`, `captcha-service/fingerprint.py`).

The development shallowly embeds the verification pipeline:

* SHA-256 and HMAC-SHA256 over byte lists (`List Nat`, each entry < 256),
  modelling Python's `hashlib.sha256` / `hmac.new(..., hashlib.sha256)`;
  the embedding is validated below against standard test vectors.
* The PoW subsystem: `generate_pow_challenge` and `verify_pow`, with the
  in-memory replay ledger `pow_used_nonces` as an association list and
  time passed in explicitly (one integer-second instant per call, the
  shallow rendering of Python's `time.time()` / `int(time.time())`).
* The behavioural risk analyzer `analyze_bot_risk` and the difficulty
  mapping `compute_pow_difficulty`, with Python floats rendered as `ℚ`.
* The verification coordinator `verify_captcha` over an explicit server
  state (image sessions, video sessions, nonce ledger).
* The keyframe generator `_generate_keyframe_positions`, with
  `random.randint` / `random.sample` outcomes passed in as parameters.

All machine arithmetic is `Nat`/`Int` with explicit `% 2 ^ 32` where the
source relies on 32-bit wraparound.  All definitions are executable.
-/

/-! ### Python-style primitives -/

/-- Python `max(a, b)` (returns the first argument on ties). -/
def pyMax {α : Type} [LinearOrder α] (a b : α) : α := if b ≤ a then a else b

/-- Python `min(a, b)` (returns the first argument on ties). -/
def pyMin {α : Type} [LinearOrder α] (a b : α) : α := if a ≤ b then a else b

/-- Python `abs(a)`. -/
def pyAbs {α : Type} [LinearOrder α] [Neg α] [OfNat α 0] (a : α) : α :=
  if a < 0 then -a else a

/-- Python `int(x)` on a real value: truncation toward zero.  On an exact
rational `num/den` this is the T-division of numerator by denominator. -/
def pyInt (q : ℚ) : ℤ := q.num.tdiv (q.den : ℤ)

/-! ### SHA-256 over byte lists (model of `hashlib.sha256`) -/

/-- `2 ^ 32`, the word modulus of SHA-256. -/
def w32 : Nat := 2 ^ 32

/-- Right-rotation of a 32-bit word, in arithmetic form. -/
def rotr32 (n w : Nat) : Nat := (w / 2 ^ n) + (w % 2 ^ n) * 2 ^ (32 - n)

/-- SHA-256 small sigma 0. -/
def ssig0 (w : Nat) : Nat := (rotr32 7 w) ^^^ (rotr32 18 w) ^^^ (w / 2 ^ 3)

/-- SHA-256 small sigma 1. -/
def ssig1 (w : Nat) : Nat := (rotr32 17 w) ^^^ (rotr32 19 w) ^^^ (w / 2 ^ 10)

/-- SHA-256 big sigma 0. -/
def bsig0 (w : Nat) : Nat := (rotr32 2 w) ^^^ (rotr32 13 w) ^^^ (rotr32 22 w)

/-- SHA-256 big sigma 1. -/
def bsig1 (w : Nat) : Nat := (rotr32 6 w) ^^^ (rotr32 11 w) ^^^ (rotr32 25 w)

/-- SHA-256 choice function (`(x ∧ y) ⊕ (¬x ∧ z)` on 32-bit words). -/
def chf (x y z : Nat) : Nat := (x &&& y) ^^^ ((x ^^^ 4294967295) &&& z)

/-- SHA-256 majority function. -/
def majf (x y z : Nat) : Nat := (x &&& y) ^^^ (x &&& z) ^^^ (y &&& z)

/-- The eight 32-bit working variables of a SHA-256 computation. -/
structure Sha256State where
  a : Nat
  b : Nat
  c : Nat
  d : Nat
  e : Nat
  f : Nat
  g : Nat
  h : Nat

/-- SHA-256 initial hash value. -/
def sha256Init : Sha256State :=
  ⟨1779033703, 3144134277, 1013904242, 2773480762, 1359893119, 2600822924, 528734635, 1541459225⟩

/-- The 64 SHA-256 round constants. -/
def sha256K : List Nat :=
  [1116352408, 1899447441, 3049323471, 3921009573,
   961987163, 1508970993, 2453635748, 2870763221,
   3624381080, 310598401, 607225278, 1426881987,
   1925078388, 2162078206, 2614888103, 3248222580,
   3835390401, 4022224774, 264347078, 604807628,
   770255983, 1249150122, 1555081692, 1996064986,
   2554220882, 2821834349, 2952996808, 3210313671,
   3336571891, 3584528711, 113926993, 338241895,
   666307205, 773529912, 1294757372, 1396182291,
   1695183700, 1986661051, 2177026350, 2456956037,
   2730485921, 2820302411, 3259730800, 3345764771,
   3516065817, 3600352804, 4094571909, 275423344,
   430227734, 506948616, 659060556, 883997877,
   958139571, 1322822218, 1537002063, 1747873779,
   1955562222, 2024104815, 2227730452, 2361852424,
   2428436474, 2756734187, 3204031479, 3329325298]

/-- One message-schedule extension step: append `σ1(w[L-2]) + w[L-7] + σ0(w[L-15]) + w[L-16]`. -/
def schedStep (acc : List Nat) : List Nat :=
  let L := acc.length
  acc ++ [(ssig1 (acc.getD (L - 2) 0) + acc.getD (L - 7) 0 +
           ssig0 (acc.getD (L - 15) 0) + acc.getD (L - 16) 0) % w32]

/-- Extend a 16-word block to the 64-word message schedule. -/
def sha256Schedule (block : List Nat) : List Nat :=
  (List.range 48).foldl (fun acc _ => schedStep acc) block

/-- One SHA-256 compression round, consuming a `(round constant, schedule word)` pair. -/
def sha256Round (st : Sha256State) (kw : Nat × Nat) : Sha256State :=
  let t1 := (st.h + bsig1 st.e + chf st.e st.f st.g + kw.1 + kw.2) % w32
  let t2 := (bsig0 st.a + majf st.a st.b st.c) % w32
  ⟨(t1 + t2) % w32, st.a, st.b, st.c, (st.d + t1) % w32, st.e, st.f, st.g⟩

/-- Compress one 16-word block into the running state. -/
def sha256Compress (st : Sha256State) (block : List Nat) : Sha256State :=
  let st2 := (sha256K.zip (sha256Schedule block)).foldl sha256Round st
  ⟨(st.a + st2.a) % w32, (st.b + st2.b) % w32, (st.c + st2.c) % w32, (st.d + st2.d) % w32,
   (st.e + st2.e) % w32, (st.f + st2.f) % w32, (st.g + st2.g) % w32, (st.h + st2.h) % w32⟩

/-- Group a byte list into big-endian 32-bit words (the input length is a
multiple of 4 after SHA-256 padding). -/
def bytesToWords : List Nat → List Nat
  | b0 :: b1 :: b2 :: b3 :: rest => (((b0 * 256 + b1) * 256 + b2) * 256 + b3) :: bytesToWords rest
  | _ => []

/-- Group a word list into 16-word blocks (the input length is a multiple
of 16 after SHA-256 padding). -/
def chunks16 : List Nat → List (List Nat)
  | w1 :: w2 :: w3 :: w4 :: w5 :: w6 :: w7 :: w8 :: w9 :: w10 :: w11 :: w12 :: w13 :: w14 :: w15 :: w16 :: rest =>
      [w1, w2, w3, w4, w5, w6, w7, w8, w9, w10, w11, w12, w13, w14, w15, w16] :: chunks16 rest
  | _ => []

/-- SHA-256 padding: append `0x80`, zero bytes up to 56 mod 64, then the
64-bit big-endian bit length. -/
def sha256PadBytes (msg : List Nat) : List Nat :=
  let len := msg.length
  let z := (120 - (len + 1) % 64) % 64
  let bitLen := len * 8
  msg ++ [128] ++ List.replicate z 0 ++
    [bitLen / 2 ^ 56 % 256, bitLen / 2 ^ 48 % 256, bitLen / 2 ^ 40 % 256, bitLen / 2 ^ 32 % 256,
     bitLen / 2 ^ 24 % 256, bitLen / 2 ^ 16 % 256, bitLen / 2 ^ 8 % 256, bitLen % 256]

/-- Big-endian bytes of a 32-bit word. -/
def wordBytes (w : Nat) : List Nat := [w / 2 ^ 24 % 256, w / 2 ^ 16 % 256, w / 2 ^ 8 % 256, w % 256]

/-- SHA-256 digest (32 bytes) of a byte list. -/
def sha256Bytes (msg : List Nat) : List Nat :=
  let fin := (chunks16 (bytesToWords (sha256PadBytes msg))).foldl sha256Compress sha256Init
  wordBytes fin.a ++ wordBytes fin.b ++ wordBytes fin.c ++ wordBytes fin.d ++
    wordBytes fin.e ++ wordBytes fin.f ++ wordBytes fin.g ++ wordBytes fin.h

/-- HMAC-SHA256 (model of Python `hmac.new(key, msg, hashlib.sha256)`),
with the standard 64-byte block size. -/
def hmacSha256 (key msg : List Nat) : List Nat :=
  let key1 := if 64 < key.length then sha256Bytes key else key
  let keyBlock := key1 ++ List.replicate (64 - key1.length) 0
  let inner := sha256Bytes ((keyBlock.map (fun b => b ^^^ 54)) ++ msg)
  sha256Bytes ((keyBlock.map (fun b => b ^^^ 92)) ++ inner)

/-- Lower-case hex character of a nibble (`0`–`9`, `a`–`f`). -/
def hexNibble (m : Nat) : Char := if m < 10 then Char.ofNat (48 + m) else Char.ofNat (87 + m)

/-- Lower-case hex character of `n % 16`. -/
def hexChar (n : Nat) : Char := hexNibble (n % 16)

/-- Lower-case hex rendering of a byte list, two characters per byte
(model of Python's `.hexdigest()`). -/
def hexOfBytes : List Nat → List Char
  | [] => []
  | b :: bs => hexChar (b / 16) :: hexChar b :: hexOfBytes bs

/-- Byte list to lower-case hex string. -/
def bytesToHex (bs : List Nat) : String := String.mk (hexOfBytes bs)

/-- Model of Python `str.encode()`: one byte per character.  Every string
handled by the service (hex salts, decimal integers, dots, colons) is
ASCII, where UTF-8 is the code point itself. -/
def strToBytes (s : String) : List Nat := s.data.map Char.toNat

/-- `hmac.new(secret.encode(), payload.encode(), hashlib.sha256).hexdigest()`,
as used by both `generate_pow_challenge` and `verify_pow`. -/
def powSign (secret payload : String) : String :=
  bytesToHex (hmacSha256 (strToBytes secret) (strToBytes payload))

/-! ### PoW subsystem (`main.py`, lines 599–772) -/

/-- Default `POW_SECRET_KEY` from `main.py` (the hex string itself is the
key, taken verbatim as UTF-8 bytes). -/
def POW_SERVER_SECRET : String :=
  "c3ab8ff13720e8ad9047dd39466b3c8974e592c2fa383d4a3960714caef0c4f2"

/-- `POW_CHALLENGE_TTL = 300` seconds. -/
def POW_CHALLENGE_TTL : ℤ := 300

/-- The canonical PoW payload `f"{salt}.{difficulty}.{timestamp}"`. -/
def pow_payload (salt : String) (difficulty timestamp : ℤ) : String :=
  salt ++ "." ++ toString difficulty ++ "." ++ toString timestamp

/-- A stateless PoW challenge as returned by `generate_pow_challenge`. -/
structure PowChallenge where
  salt : String
  difficulty : ℤ
  timestamp : ℤ
  signature : String
deriving DecidableEq

/-- `generate_pow_challenge` (`main.py` 599–651).  The random salt and the
clock reading are passed in as parameters; the signature is the
HMAC-SHA256 of the canonical payload under the server secret. -/
def generate_pow_challenge (secret : String) (salt : String) (difficulty timestamp : ℤ) :
    PowChallenge :=
  ⟨salt, difficulty, timestamp, powSign secret (pow_payload salt difficulty timestamp)⟩

/-- The replay ledger `pow_used_nonces : dict[str, float]`, keyed by
`f"{salt}:{nonce}"` with an expiry instant as value. -/
abbrev PowState : Type := List (String × ℤ)

/-- `_purge_expired_nonces` (`main.py` 709–714): drop entries with
`expiry ≤ now`. -/
def purge_expired_nonces (now : ℤ) (st : PowState) : PowState :=
  st.filter (fun kv => decide (now < kv.2))

/-- The replay-ledger key `f"{salt}:{nonce}"`. -/
def replay_key (salt : String) (nonce : ℤ) : String := salt ++ ":" ++ toString nonce

/-- Dictionary assignment `d[k] = v` on the association-list model. -/
def dict_insert (k : String) (v : ℤ) (st : PowState) : PowState :=
  (k, v) :: st.filter (fun kv => kv.1 != k)

/-- Count of leading zero bits of a digest, MSB first: 8 per leading zero
byte, plus the `clz` of the first non-zero byte. -/
def count_leading_zero_bits : List Nat → Nat
  | [] => 0
  | b :: bs =>
    if b = 0 then 8 + count_leading_zero_bits bs
    else if 128 ≤ b then 0
    else if 64 ≤ b then 1
    else if 32 ≤ b then 2
    else if 16 ≤ b then 3
    else if 8 ≤ b then 4
    else if 4 ≤ b then 5
    else if 2 ≤ b then 6
    else 7

/-- Fuel-indexed little-endian hex digits of `n` (fuel `n + 1` always
suffices since the argument is quartered each step). -/
def natHexRevAux : Nat → Nat → List Char
  | 0, _ => []
  | fuel + 1, n => if n = 0 then [] else hexChar n :: natHexRevAux fuel (n / 16)

/-- Lower-case, unpadded hex rendering of a natural number (the canonical
nonce rendering of the PoW client contract). -/
def natToHex (n : Nat) : String :=
  if n = 0 then "0" else String.mk (natHexRevAux (n + 1) n).reverse

/-- Modelled from the spec: the PoW hash routine lives in `wasm/solver.c`,
compiled to `solver_native.so` and called through `_verify_pow_nonce`;
that C source is not part of `src/`.  Per the spec's client contract the
hash is `SHA256(salt ++ "." ++ hex(nonce))` with the nonce in lower-case
unpadded hex, scored by its count of leading zero bits. -/
def pow_hash_zero_bits (salt : String) (nonce : ℤ) : Nat :=
  count_leading_zero_bits (sha256Bytes (strToBytes (salt ++ "." ++ natToHex nonce.toNat)))

/-- Modelled from the spec: `_verify_pow_nonce` succeeds exactly when the
hash of `(salt, nonce)` reaches `difficulty` leading zero bits. -/
def pow_nonce_ok (salt : String) (difficulty nonce : ℤ) : Prop :=
  difficulty ≤ (pow_hash_zero_bits salt nonce : ℤ)

instance (salt : String) (difficulty nonce : ℤ) : Decidable (pow_nonce_ok salt difficulty nonce) :=
  Int.decLe _ _

/-- `verify_pow` (`main.py` 717–772).  Returns `none` on success or the
rejection reason, together with the updated replay ledger.  `now` is the
integer-second instant of the call. -/
def verify_pow (secret : String) (now : ℤ) (st : PowState) (salt : String)
    (difficulty timestamp : ℤ) (signature : String) (nonce : ℤ) :
    Option String × PowState :=
  let expected_sig := powSign secret (pow_payload salt difficulty timestamp)
  if signature = expected_sig then
    let age := now - timestamp
    if age < 0 ∨ age > POW_CHALLENGE_TTL then (some "PoW challenge expired.", st)
    else
      let st1 := purge_expired_nonces now st
      let rk := replay_key salt nonce
      if (List.lookup rk st1).isSome then (some "PoW nonce already used.", st1)
      else if pow_nonce_ok salt difficulty nonce then
        (none, dict_insert rk (now + POW_CHALLENGE_TTL) st1)
      else (some "PoW nonce does not satisfy difficulty target.", st1)
  else (some "Invalid PoW signature.", st)

/-! ### Risk analyzer (`fingerprint.py`) -/

/-- A client fingerprint after the field coercions `analyze_bot_risk`
applies to the raw dict: `str(fp.get(...) or "")` for the two string
fields, truthiness for the other three.  A `None` (or empty, hence falsy)
dict is rendered as `Option.none` at the use sites. -/
structure Fingerprint where
  user_agent : String
  screen_resolution : String
  webdriver : Bool
  timezone_name : Bool
  canvas_fingerprint : Bool
deriving DecidableEq

/-- `TrajectoryPoint` (`fingerprint.py` 7–13); Python floats are rendered
as exact rationals. -/
structure TrajectoryPoint where
  timestamp : ℤ
  value : ℚ
  delta : ℚ
  velocity : ℚ
  time_delta_ms : ℤ
deriving DecidableEq

/-- `BehaviorData` (`fingerprint.py` 16–24). -/
structure BehaviorData where
  start_time : ℤ
  end_time : ℤ
  total_duration_ms : ℤ
  event_count : ℤ
  mouse_down_count : ℤ
  mouse_move_count : ℤ
  events : List String
deriving DecidableEq

/-- `CaptchaSession` (`fingerprint.py` 27–32). -/
structure CaptchaSession where
  solved_value : ℤ
  fingerprint : Option Fingerprint := none
  trajectory : Option (List TrajectoryPoint) := none
  behavior : Option BehaviorData := none
deriving DecidableEq

/-- Decimal value of a digit list, `none` if empty or containing a
non-digit (the failure mode of Python `int(str)`). -/
def digitsValAux : List Char → Nat → Option Nat
  | [], acc => some acc
  | c :: cs, acc => if c.isDigit then digitsValAux cs (acc * 10 + (c.toNat - 48)) else none

/-- Parse a non-empty all-digit character list. -/
def digitsVal (l : List Char) : Option Nat :=
  if l.isEmpty then none else digitsValAux l 0

/-- Python `int(s)` on a string: optional surrounding whitespace, optional
sign, decimal digits.  (Underscore digit separators, a rarely used Python
extension, are treated as a parse failure.) -/
def pyParseInt (s : String) : Option ℤ :=
  match s.trim.data with
  | [] => none
  | c :: cs =>
    if c = '-' then (digitsVal cs).map (fun n => -(n : ℤ))
    else if c = '+' then (digitsVal cs).map (fun n => (n : ℤ))
    else (digitsVal (c :: cs)).map (fun n => (n : ℤ))

/-- Split a character list at the first occurrence of `c`
(Python `split(c, 1)` when `c` occurs; `none` when it does not, in which
case unpacking into two variables raises). -/
def splitFirst (c : Char) : List Char → Option (List Char × List Char)
  | [] => none
  | a :: rest => if a = c then some ([], rest) else (splitFirst c rest).map (fun p => (a :: p.1, p.2))

/-- Python `s.lower()` (ASCII case folding of `str.lower` on the
service's inputs). -/
def pyLower (s : String) : String := String.mk (s.data.map Char.toLower)

/-- The `screen_resolution.lower().split("x", 1)` + `int` parse of
`analyze_bot_risk`: `none` models the `except` branch. -/
def parse_screen_resolution (s : String) : Option (ℤ × ℤ) :=
  match splitFirst 'x' (pyLower s).data with
  | none => none
  | some lr =>
    match pyParseInt (String.mk lr.1), pyParseInt (String.mk lr.2) with
    | some w, some h => some (w, h)
    | _, _ => none

/-- The fingerprint block of `analyze_bot_risk` (`fingerprint.py`
123–155), as the ordered list of fired `(flag, penalty)` rules.  The
source appends each flag and subtracts each penalty in this order. -/
def fingerprint_rules : Option Fingerprint → List (String × ℤ)
  | none => [("missing_fingerprint", (30 : ℤ))]
  | some fp =>
    (if fp.user_agent.length < 20 then [("suspicious_user_agent", (20 : ℤ))] else []) ++
    (match parse_screen_resolution fp.screen_resolution with
     | some wh => if wh.1 ≤ 0 ∨ wh.2 ≤ 0 then [("invalid_screen_resolution", (15 : ℤ))] else []
     | none => [("invalid_screen_resolution", (15 : ℤ))]) ++
    (if fp.webdriver then [("webdriver_detected", (35 : ℤ))] else []) ++
    (if fp.timezone_name then [] else [("missing_timezone", (5 : ℤ))]) ++
    (if fp.canvas_fingerprint then [] else [("missing_canvas_fingerprint", (10 : ℤ))])

/-- Mean of a rational list (callers guard against emptiness). -/
def qMean (l : List ℚ) : ℚ := l.sum / (l.length : ℚ)

/-- Population variance of a rational list, as computed in the source. -/
def qVariance (l : List ℚ) : ℚ := ((l.map (fun v => (v - qMean l) ^ 2)).sum) / (l.length : ℚ)

/-- The trajectory block of `analyze_bot_risk` (`fingerprint.py`
157–189) as fired rules; `none` or fewer than 4 points is the
`insufficient_trajectory_data` branch. -/
def trajectory_rules : Option (List TrajectoryPoint) → List (String × ℤ)
  | none => [("insufficient_trajectory_data", (30 : ℤ))]
  | some traj =>
    if 4 ≤ traj.length then
      (let velocities := (traj.filter (fun p => decide (0 < p.time_delta_ms))).map (fun p => p.velocity)
       if velocities ≠ [] ∧ qVariance velocities < 3 / 1000 then
         [("linear_velocity_pattern", (20 : ℤ))] else []) ++
      (let non_zero_deltas := (traj.filter (fun p => decide (p.delta ≠ 0))).map (fun p => pyAbs p.delta)
       if non_zero_deltas ≠ [] ∧ (qVariance non_zero_deltas < 1 / 5 ∧ 4 ≤ non_zero_deltas.length) then
         [("uniform_delta_pattern", (15 : ℤ))] else []) ++
      (if ((traj.map (fun p => pyInt p.value)).dedup).length < 4 then
         [("low_slider_entropy", (15 : ℤ))] else []) ++
      (let time_deltas := (traj.filter (fun p => decide (0 < p.time_delta_ms))).map (fun p => p.time_delta_ms)
       if time_deltas ≠ [] ∧ (time_deltas.filter (fun d => decide (120 ≤ d))).length = 0 then
         [("no_movement_pauses", (15 : ℤ))] else [])
    else [("insufficient_trajectory_data", (30 : ℤ))]

/-- The behaviour block of `analyze_bot_risk` (`fingerprint.py`
191–222) as fired rules. -/
def behavior_rules : Option BehaviorData → List (String × ℤ)
  | none => [("missing_behavior_data", (25 : ℤ))]
  | some b =>
    (if b.total_duration_ms ≤ 0 then [("invalid_behavior_duration", (20 : ℤ))]
     else if b.total_duration_ms < 300 then [("suspiciously_fast", (25 : ℤ))]
     else if b.total_duration_ms < 700 then [("very_fast", (10 : ℤ))]
     else if 45000 < b.total_duration_ms then [("suspiciously_slow", (10 : ℤ))]
     else []) ++
    (if b.mouse_down_count < 1 then [("missing_mousedown", (10 : ℤ))] else []) ++
    (if b.mouse_move_count < 3 then [("insufficient_mouse_movement", (20 : ℤ))]
     else if b.mouse_move_count < 8 then [("limited_mouse_movement", (10 : ℤ))] else []) ++
    (if b.event_count < 3 then [("low_event_count", (10 : ℤ))] else [])

/-- All fired rules of `analyze_bot_risk`, in source order. -/
def risk_rules (s : CaptchaSession) : List (String × ℤ) :=
  fingerprint_rules s.fingerprint ++ trajectory_rules s.trajectory ++ behavior_rules s.behavior

/-- The `details` sub-dict of the analysis result
(`fingerprint.py` 230–239). -/
structure RiskDetails where
  fingerprint_present : Bool
  trajectory_points : Nat
  total_duration_ms : ℤ
  movement_events : ℤ
deriving DecidableEq

/-- The result dict of `analyze_bot_risk` (`fingerprint.py` 226–240). -/
structure RiskResult where
  is_bot : Bool
  confidence_score : ℤ
  flags : List String
  details : RiskDetails
deriving DecidableEq

/-- `max(0, min(100, 100 - total))`: the final clamp of `analyze_bot_risk`
applied to `100` minus the accumulated penalties. -/
def clamp_score (total : ℤ) : ℤ := pyMax 0 (pyMin 100 (100 - total))

/-- `analyze_bot_risk` (`fingerprint.py` 120–240).  The source threads a
mutable `score` starting at 100, subtracting each fired rule's penalty as
it appends the flag; collecting the fired rules and subtracting their sum
is the same accumulation. -/
def analyze_bot_risk (s : CaptchaSession) : RiskResult :=
  let rules := risk_rules s
  let score := clamp_score ((rules.map (fun r => r.2)).sum)
  { is_bot := decide (score < 60)
    confidence_score := score
    flags := rules.map (fun r => r.1)
    details :=
      { fingerprint_present := s.fingerprint.isSome
        trajectory_points := (s.trajectory.getD []).length
        total_duration_ms := (s.behavior.map (fun b => b.total_duration_ms)).getD 0
        movement_events := (s.behavior.map (fun b => b.mouse_move_count)).getD 0 } }

/-- The result dict of `compute_pow_difficulty`. -/
structure PowDifficultyResult where
  difficulty : ℤ
  risk_level : String
  score : ℤ
  flags : List String
deriving DecidableEq

/-- `compute_pow_difficulty` (`fingerprint.py` 79–117): run
`analyze_bot_risk` on a synthetic session with `solved_value = 0` and map
the confidence score to a difficulty tier. -/
def compute_pow_difficulty (fingerprint : Option Fingerprint)
    (trajectory : Option (List TrajectoryPoint)) (behavior : Option BehaviorData) :
    PowDifficultyResult :=
  let result := analyze_bot_risk ⟨0, fingerprint, trajectory, behavior⟩
  let score := result.confidence_score
  if 70 ≤ score then ⟨15, "low", score, result.flags⟩
  else if 40 ≤ score then ⟨19, "medium", score, result.flags⟩
  else ⟨22, "high", score, result.flags⟩

/-! ### Keyframe generation (`main.py` 177–202) -/

/-- `positions[i+1] - positions[i] >= MIN_GAP` for every consecutive pair
(`MIN_GAP = 8`). -/
def kf_gaps_ok : List ℤ → Bool
  | a :: b :: rest => decide (8 ≤ b - a) && kf_gaps_ok (b :: rest)
  | _ => true

/-- `[0] + interior + [100]`. -/
def kf_positions_of (interior : List ℤ) : List ℤ := 0 :: (interior ++ [100])

/-- The fallback of `_generate_keyframe_positions`:
`step = 100 // (num_interior + 1)`, positions `[0, step, 2·step, …, n·step, 100]`. -/
def kf_fallback (n : Nat) : List ℤ :=
  0 :: (((List.range n).map (fun i => ((100 / (n + 1) * (i + 1) : Nat) : ℤ))) ++ [100])

/-- The retry loop of `_generate_keyframe_positions`: try up to `fuel`
sampled interiors, return the first whose gaps are all ≥ 8, else the
fallback. -/
def kf_attempt_loop (tries : Nat → List ℤ) (fb : List ℤ) : Nat → Nat → List ℤ
  | _, 0 => fb
  | i, fuel + 1 =>
    if kf_gaps_ok (kf_positions_of (tries i)) then kf_positions_of (tries i)
    else kf_attempt_loop tries fb (i + 1) fuel

/-- `_generate_keyframe_positions` (`main.py` 177–202).  `n` is the
`random.randint(3, 5)` draw; `tries i` is the `sorted(random.sample(range(1, 100), n))`
draw of retry `i` (200 retries). -/
def generate_keyframe_positions (n : Nat) (tries : Nat → List ℤ) : List ℤ :=
  kf_attempt_loop tries (kf_fallback n) 0 200

/-! ### Verification coordinator (`main.py` 1003–1096) -/

/-- A video challenge session (`main.py` 807–814).  The feather mask, a
float image used only for frame rendering, is not part of the verified
state. -/
structure VideoSession where
  true_x : ℤ
  true_y : ℤ
  start_x : ℤ
  start_y : ℤ
  roi_size : ℤ
  secret_target : ℚ
  current_slider : ℚ
deriving DecidableEq

/-- The shared mutable server state: image sessions, video sessions and
the PoW replay ledger. -/
structure ServerState where
  captcha_sessions : List (String × CaptchaSession)
  video_captcha_sessions : List (String × VideoSession)
  pow_used_nonces : PowState

/-- A `/verify-captcha` request body after JSON field extraction:
`parsed_trajectory` and `parsed_behavior` are the outputs of
`parse_trajectory` / `parse_behavior` on the raw telemetry. -/
structure VerifyRequest where
  captcha_id : Option String
  slider_value : Option ℤ
  mode : String
  fingerprint : Option Fingerprint
  parsed_trajectory : List TrajectoryPoint
  parsed_behavior : Option BehaviorData
  pow_salt : Option String
  pow_nonce : Option ℤ
  pow_difficulty : Option ℤ
  pow_timestamp : Option ℤ
  pow_signature : Option String

/-- A `/verify-captcha` JSON response: `success`, an optional `error`
string, an optional `analysis` dict. -/
structure VerifyResponse where
  success : Bool
  error : Option String
  analysis : Option RiskResult
deriving DecidableEq

/-- The telemetry attachment of the image branch (`main.py` 1085–1089):
fingerprint is overwritten; trajectory only if non-empty (truthy);
behaviour only if parsed. -/
def attach_telemetry (session : CaptchaSession) (fingerprint : Option Fingerprint)
    (parsed_trajectory : List TrajectoryPoint) (parsed_behavior : Option BehaviorData) :
    CaptchaSession :=
  { session with
    fingerprint := fingerprint
    trajectory := if parsed_trajectory.isEmpty then session.trajectory else some parsed_trajectory
    behavior := match parsed_behavior with | some b => some b | none => session.behavior }

/-- The synthetic session of the video branch (`main.py` 1068–1073):
`solved_value = int(target * 1000)` with the request telemetry attached
(the parsed trajectory list is passed directly, empty or not). -/
def video_temp_session (target : ℚ) (fingerprint : Option Fingerprint)
    (parsed_trajectory : List TrajectoryPoint) (parsed_behavior : Option BehaviorData) :
    CaptchaSession :=
  ⟨pyInt (target * 1000), fingerprint, some parsed_trajectory, parsed_behavior⟩

/-- `verify_captcha` (`main.py` 1003–1096): field validation, then the
PoW gate, then the mode-specific session lookup, answer check and risk
analysis.  Returns the JSON response and the updated server state;
`now` is the integer-second instant of the call. -/
def verify_captcha (secret : String) (now : ℤ) (st : ServerState) (req : VerifyRequest) :
    VerifyResponse × ServerState :=
  match req.captcha_id, req.slider_value with
  | some captcha_id, some slider_value =>
    (match req.pow_salt, req.pow_nonce, req.pow_difficulty, req.pow_timestamp, req.pow_signature with
     | some pow_salt, some pow_nonce, some pow_difficulty, some pow_timestamp, some pow_signature =>
       let pr := verify_pow secret now st.pow_used_nonces pow_salt pow_difficulty pow_timestamp
                   pow_signature pow_nonce
       let st1 : ServerState := { st with pow_used_nonces := pr.2 }
       match pr.1 with
       | some err => (⟨false, some err, none⟩, st1)
       | none =>
         if pyLower req.mode = "video" then
           match List.lookup captcha_id st.video_captcha_sessions with
           | none => (⟨false, some "Invalid or expired captcha_id.", none⟩, st1)
           | some challenge =>
             let submitted_val : ℚ := pyMax 0 (pyMin 1 ((slider_value : ℚ) / 1000))
             let target := challenge.secret_target
             let bot_analysis := analyze_bot_risk
               (video_temp_session target req.fingerprint req.parsed_trajectory req.parsed_behavior)
             let success := decide (pyAbs (target - submitted_val) ≤ 3 / 100) && !bot_analysis.is_bot
             (⟨success, none, some bot_analysis⟩,
              if success then
                { st1 with video_captcha_sessions :=
                    st.video_captcha_sessions.filter (fun kv => kv.1 != captcha_id) }
              else st1)
         else
           match List.lookup captcha_id st.captcha_sessions with
           | none => (⟨false, some "Invalid or expired captcha_id.", none⟩, st1)
           | some session =>
             let st2 : ServerState :=
               { st1 with captcha_sessions :=
                   st.captcha_sessions.filter (fun kv => kv.1 != captcha_id) }
             let session2 := attach_telemetry session req.fingerprint req.parsed_trajectory
               req.parsed_behavior
             let bot_analysis := analyze_bot_risk session2
             let success := decide (pyAbs (slider_value - session.solved_value) ≤ 3) && !bot_analysis.is_bot
             (⟨success, none, some bot_analysis⟩, st2)
     | _, _, _, _, _ => (⟨false, some "Missing PoW fields.", none⟩, st))
  | _, _ => (⟨false, some "Missing captcha_id or slider_value.", none⟩, st)

/-- The spec's rounding: nearest integer, as `⌊q + 1/2⌋` rendered with
the executable Euclidean floor `num / den` (positive denominator). -/
def round_nearest (q : ℚ) : ℤ := (q + 1 / 2).num / ((q + 1 / 2).den : ℤ)

/-- The spec's "evenly spaced": every consecutive gap equals the first
one. -/
def evenly_spaced (l : List ℤ) : Prop :=
  ∀ g ∈ List.zipWith (fun a b => b - a) l l.tail,
    g = (List.zipWith (fun a b => b - a) l l.tail).headD 0

instance (l : List ℤ) : Decidable (evenly_spaced l) :=
  inferInstanceAs (Decidable (∀ g ∈ List.zipWith (fun a b => b - a) l l.tail,
    g = (List.zipWith (fun a b => b - a) l l.tail).headD 0))

/-- Lower-case hex character test: digit `0`–`9` or letter `a`–`f`. -/
def is_lower_hex (c : Char) : Bool :=
  (48 ≤ c.toNat && c.toNat ≤ 57) || (97 ≤ c.toNat && c.toNat ≤ 102)

set_option maxRecDepth 100000

set_option maxHeartbeats 1000000

/-! ### Embedding validation: SHA-256 / HMAC-SHA256 standard test vectors -/

example : bytesToHex (sha256Bytes []) =
    "e3b0c44298fc1c149afbf4c8996fb92427ae41e4649b934ca495991b7852b855" := by decide

example : bytesToHex (hmacSha256 (strToBytes "key")
      (strToBytes "The quick brown fox jumps over the lazy dog")) =
    "f7bc83f430538424b13298e6aa6fb143ef4d59a14946175997479dbc2d1a3cd8" := by decide

/-! ### Helper lemmas: score clamping and rule penalties -/

theorem clamp_score_nonneg (t : ℤ) : 0 ≤ clamp_score t := by
  unfold clamp_score pyMax pyMin; split_ifs <;> omega

theorem clamp_score_le_100 (t : ℤ) : clamp_score t ≤ 100 := by
  unfold clamp_score pyMax pyMin; split_ifs <;> omega

theorem clamp_score_anti (t1 t2 : ℤ) (h : t1 ≤ t2) : clamp_score t2 ≤ clamp_score t1 := by
  unfold clamp_score pyMax pyMin; split_ifs <;> omega

theorem fingerprint_rules_pos_bool (fp : Option Fingerprint) :
    (fingerprint_rules fp).all (fun r => decide (0 < r.2)) = true := by
  cases fp with
  | none => decide
  | some fp =>
    unfold fingerprint_rules
    rcases hsr : parse_screen_resolution fp.screen_resolution with - | wh <;>
      simp only [hsr] <;> split_ifs <;> decide

theorem trajectory_rules_pos_bool (t : Option (List TrajectoryPoint)) :
    (trajectory_rules t).all (fun r => decide (0 < r.2)) = true := by
  cases t with
  | none => decide
  | some traj =>
    simp only [trajectory_rules]
    split_ifs <;> decide

theorem behavior_rules_pos_bool (b : Option BehaviorData) :
    (behavior_rules b).all (fun r => decide (0 < r.2)) = true := by
  cases b with
  | none => decide
  | some b =>
    simp only [behavior_rules]
    split_ifs <;> decide

theorem risk_rules_pos (s : CaptchaSession) : ∀ r ∈ risk_rules s, 0 < r.2 := by
  intro r hr
  simp only [risk_rules, List.mem_append] at hr
  rcases hr with (hr | hr) | hr
  · exact of_decide_eq_true (List.all_eq_true.mp (fingerprint_rules_pos_bool _) r hr)
  · exact of_decide_eq_true (List.all_eq_true.mp (trajectory_rules_pos_bool _) r hr)
  · exact of_decide_eq_true (List.all_eq_true.mp (behavior_rules_pos_bool _) r hr)

/-- C5: for every session, `analyze_bot_risk` yields a confidence score in
`[0, 100]`, classifies `is_bot` exactly when the score is below 60, the
score is `100` minus the accumulated penalties of the fired rules
(clamped), and extending the accumulated rule list by further fired rules
can only lower the clamped score. -/
theorem risk_score_bounds_and_monotonicity (s : CaptchaSession) :
    (0 ≤ (analyze_bot_risk s).confidence_score ∧ (analyze_bot_risk s).confidence_score ≤ 100) ∧
    ((analyze_bot_risk s).is_bot = true ↔ (analyze_bot_risk s).confidence_score < 60) ∧
    (analyze_bot_risk s).confidence_score = clamp_score (((risk_rules s).map (fun r => r.2)).sum) ∧
    ∀ l1 l2, risk_rules s = l1 ++ l2 →
      clamp_score (((l1 ++ l2).map (fun r => r.2)).sum) ≤ clamp_score ((l1.map (fun r => r.2)).sum) := by
  refine ⟨⟨clamp_score_nonneg _, clamp_score_le_100 _⟩, ?_, rfl, ?_⟩
  · simp [analyze_bot_risk]
  · intro l1 l2 h
    apply clamp_score_anti
    simp only [List.map_append, List.sum_append]
    have h2 : 0 ≤ (l2.map (fun r => r.2)).sum := by
      apply List.sum_nonneg
      intro x hx
      obtain ⟨r, hr, rfl⟩ := List.mem_map.mp hx
      exact le_of_lt (risk_rules_pos s r (h ▸ List.mem_append_right l1 hr))
    omega

/-- C5 witness: the all-absent session fires exactly three rules; the
score after the first rule only drops as the remaining two accumulate. -/
theorem risk_score_bounds_witness :
    risk_rules ⟨0, none, none, none⟩ =
      [("missing_fingerprint", (30 : ℤ))] ++
        [("insufficient_trajectory_data", (30 : ℤ)), ("missing_behavior_data", (25 : ℤ))] ∧
    clamp_score ((([("missing_fingerprint", (30 : ℤ))] ++
        [("insufficient_trajectory_data", (30 : ℤ)), ("missing_behavior_data", (25 : ℤ))]).map
          (fun r => r.2)).sum) ≤
      clamp_score (([("missing_fingerprint", (30 : ℤ))].map (fun r => r.2)).sum) :=
  ⟨by decide,
   (risk_score_bounds_and_monotonicity ⟨0, none, none, none⟩).2.2.2 _ _ (by decide)⟩

/-- C6: `compute_pow_difficulty` maps the risk score to exactly one tier:
score ≥ 70 gives `low`/15, 40 ≤ score < 70 gives `medium`/19, and
score < 40 gives `high`/22. -/
theorem pow_difficulty_tiers (fp : Option Fingerprint) (t : Option (List TrajectoryPoint))
    (b : Option BehaviorData) :
    ((70 ≤ (analyze_bot_risk ⟨0, fp, t, b⟩).confidence_score →
        (compute_pow_difficulty fp t b).risk_level = "low" ∧
        (compute_pow_difficulty fp t b).difficulty = 15) ∧
     (40 ≤ (analyze_bot_risk ⟨0, fp, t, b⟩).confidence_score ∧
        (analyze_bot_risk ⟨0, fp, t, b⟩).confidence_score < 70 →
        (compute_pow_difficulty fp t b).risk_level = "medium" ∧
        (compute_pow_difficulty fp t b).difficulty = 19) ∧
     ((analyze_bot_risk ⟨0, fp, t, b⟩).confidence_score < 40 →
        (compute_pow_difficulty fp t b).risk_level = "high" ∧
        (compute_pow_difficulty fp t b).difficulty = 22)) := by
  simp only [compute_pow_difficulty]
  split_ifs with hA hB <;>
    refine ⟨fun h => ?_, fun h => ?_, fun h => ?_⟩ <;> first | exact ⟨rfl, rfl⟩ | (exfalso; omega)

/-- C6 witness: the all-absent telemetry scores 15 (< 40) and lands in the
`high`/22 tier. -/
theorem pow_difficulty_tiers_witness :
    (analyze_bot_risk ⟨0, none, none, none⟩).confidence_score < 40 ∧
    (compute_pow_difficulty none none none).risk_level = "high" ∧
    (compute_pow_difficulty none none none).difficulty = 22 :=
  ⟨by decide, (pow_difficulty_tiers none none none).2.2 (by decide)⟩

/-- C10: the risk analysis never reads the secret answer: two sessions
agreeing on fingerprint, trajectory and behaviour but differing in
`solved_value` get identical analysis results. -/
theorem risk_independent_of_solved_value (s1 s2 : CaptchaSession)
    (hf : s1.fingerprint = s2.fingerprint) (ht : s1.trajectory = s2.trajectory)
    (hb : s1.behavior = s2.behavior) :
    analyze_bot_risk s1 = analyze_bot_risk s2 := by
  obtain ⟨v1, f1, t1, b1⟩ := s1
  obtain ⟨v2, f2, t2, b2⟩ := s2
  dsimp only at hf ht hb
  subst hf; subst ht; subst hb
  rfl

/-- C10 witness: solved values 0 and 42 with identical (absent) telemetry
give identical analyses. -/
theorem risk_independent_witness :
    (⟨0, none, none, none⟩ : CaptchaSession).fingerprint =
      (⟨42, none, none, none⟩ : CaptchaSession).fingerprint ∧
    (⟨0, none, none, none⟩ : CaptchaSession).trajectory =
      (⟨42, none, none, none⟩ : CaptchaSession).trajectory ∧
    (⟨0, none, none, none⟩ : CaptchaSession).behavior =
      (⟨42, none, none, none⟩ : CaptchaSession).behavior ∧
    analyze_bot_risk ⟨0, none, none, none⟩ = analyze_bot_risk ⟨42, none, none, none⟩ :=
  ⟨rfl, rfl, rfl, risk_independent_of_solved_value _ _ rfl rfl rfl⟩

/-! ### Helper lemmas: keyframe positions -/

theorem kf_gaps_ok_iff : ∀ l : List ℤ, kf_gaps_ok l = true ↔ List.Chain' (fun a b => 8 ≤ b - a) l
  | [] => by simp [kf_gaps_ok]
  | [a] => by simp [kf_gaps_ok]
  | a :: b :: rest => by
    rw [kf_gaps_ok]
    simp only [Bool.and_eq_true, decide_eq_true_iff, List.chain'_cons, kf_gaps_ok_iff (b :: rest)]

theorem kf_attempt_loop_cases (tries : Nat → List ℤ) (fb : List ℤ) :
    ∀ fuel i, kf_attempt_loop tries fb i fuel = fb ∨
      ∃ j, kf_attempt_loop tries fb i fuel = kf_positions_of (tries j) ∧
           kf_gaps_ok (kf_positions_of (tries j)) = true
  | 0, _ => Or.inl rfl
  | fuel + 1, i => by
    rw [kf_attempt_loop]
    split_ifs with h
    · exact Or.inr ⟨i, rfl, h⟩
    · exact kf_attempt_loop_cases tries fb fuel (i + 1)

theorem kf_positions_props (interior : List ℤ)
    (hg : kf_gaps_ok (kf_positions_of interior) = true) :
    (kf_positions_of interior).head? = some 0 ∧
    (kf_positions_of interior).getLast? = some 100 ∧
    List.Chain' (· < ·) (kf_positions_of interior) ∧
    List.Chain' (fun a b => 8 ≤ b - a) (kf_positions_of interior) := by
  have hc := (kf_gaps_ok_iff _).mp hg
  refine ⟨rfl, ?_, hc.imp (fun a b h => by omega), hc⟩
  have hsplit : kf_positions_of interior = (((0 : ℤ) :: interior) ++ [100]) := rfl
  rw [hsplit, List.getLast?_concat]

/-- C9 (amended): every keyframe position list starts at 0, ends at 100,
is strictly increasing, has 5–7 elements and every consecutive gap ≥ 8;
it is either a successful sample `[0] ++ interior ++ [100]` or the
fallback `[0, s, 2s, …, n·s, 100]` with `s = 100 / (n+1)` rounded down
(so the final gap may exceed `s` when `n = 5`). -/
theorem keyframe_positions_spec_amended (n : Nat) (tries : Nat → List ℤ)
    (h1 : 3 ≤ n) (h2 : n ≤ 5) (h3 : ∀ i, (tries i).length = n) :
    (generate_keyframe_positions n tries).head? = some 0 ∧
    (generate_keyframe_positions n tries).getLast? = some 100 ∧
    List.Chain' (· < ·) (generate_keyframe_positions n tries) ∧
    5 ≤ (generate_keyframe_positions n tries).length ∧
    (generate_keyframe_positions n tries).length ≤ 7 ∧
    List.Chain' (fun a b => 8 ≤ b - a) (generate_keyframe_positions n tries) ∧
    (generate_keyframe_positions n tries = kf_fallback n ∨
     ∃ j, generate_keyframe_positions n tries = kf_positions_of (tries j)) := by
  rcases kf_attempt_loop_cases tries (kf_fallback n) 200 0 with h | ⟨j, hj, hg⟩
  · have hgen : generate_keyframe_positions n tries = kf_fallback n := h
    rw [hgen]
    have hg : kf_gaps_ok (kf_fallback n) = true := by interval_cases n <;> decide
    have hc := (kf_gaps_ok_iff _).mp hg
    refine ⟨?_, ?_, hc.imp (fun a b hab => by omega), ?_, ?_, hc, Or.inl rfl⟩
    · interval_cases n <;> decide
    · interval_cases n <;> decide
    · interval_cases n <;> decide
    · interval_cases n <;> decide
  · have hgen : generate_keyframe_positions n tries = kf_positions_of (tries j) := hj
    rw [hgen]
    obtain ⟨ha, hb, hc, hd⟩ := kf_positions_props (tries j) hg
    have hlen : (kf_positions_of (tries j)).length = n + 2 := by
      simp [kf_positions_of, h3 j]
    exact ⟨ha, hb, hc, by omega, by omega, hd, Or.inr ⟨j, rfl⟩⟩

/-- C9 witness: with `n = 3` and every sample `[25, 50, 75]` the first
try succeeds and all the stated properties hold. -/
theorem keyframe_positions_witness :
    (3 ≤ 3 ∧ (3 : Nat) ≤ 5 ∧ ∀ i : Nat, ((fun _ : Nat => [(25 : ℤ), 50, 75]) i).length = 3) ∧
    (generate_keyframe_positions 3 (fun _ : Nat => [(25 : ℤ), 50, 75])).head? = some 0 ∧
    (generate_keyframe_positions 3 (fun _ : Nat => [(25 : ℤ), 50, 75])).getLast? = some 100 ∧
    List.Chain' (· < ·) (generate_keyframe_positions 3 (fun _ : Nat => [(25 : ℤ), 50, 75])) ∧
    5 ≤ (generate_keyframe_positions 3 (fun _ : Nat => [(25 : ℤ), 50, 75])).length ∧
    (generate_keyframe_positions 3 (fun _ : Nat => [(25 : ℤ), 50, 75])).length ≤ 7 ∧
    List.Chain' (fun a b => 8 ≤ b - a) (generate_keyframe_positions 3 (fun _ : Nat => [(25 : ℤ), 50, 75])) ∧
    (generate_keyframe_positions 3 (fun _ : Nat => [(25 : ℤ), 50, 75]) = kf_fallback 3 ∨
     ∃ j, generate_keyframe_positions 3 (fun _ : Nat => [(25 : ℤ), 50, 75]) =
       kf_positions_of ((fun _ : Nat => [(25 : ℤ), 50, 75]) j)) :=
  ⟨⟨by omega, by omega, fun _ => rfl⟩,
   keyframe_positions_spec_amended 3 (fun _ : Nat => [(25 : ℤ), 50, 75]) (by omega) (by omega)
     (fun _ => rfl)⟩

/-- C9 counterexample: with `n = 5` and every sample failing the gap
check, the fallback is `[0, 16, 32, 48, 64, 80, 100]`, whose gaps are
`16, 16, 16, 16, 16, 20` — not evenly spaced as the claim states. -/
theorem keyframe_fallback_not_evenly_spaced :
    generate_keyframe_positions 5 (fun _ => [1, 2, 3, 4, 5]) = [0, 16, 32, 48, 64, 80, 100] ∧
    ¬ evenly_spaced [0, 16, 32, 48, 64, 80, 100] := by decide

/-! ### Helper lemmas: digest shape -/

theorem sha256Bytes_length (msg : List Nat) : (sha256Bytes msg).length = 32 := by
  unfold sha256Bytes
  simp [wordBytes]

theorem hmacSha256_length (key msg : List Nat) : (hmacSha256 key msg).length = 32 := by
  unfold hmacSha256
  exact sha256Bytes_length _

theorem hexOfBytes_length : ∀ bs : List Nat, (hexOfBytes bs).length = 2 * bs.length
  | [] => rfl
  | b :: bs => by
    rw [hexOfBytes]
    simp only [List.length_cons, hexOfBytes_length bs]
    omega

theorem hexChar_lower (n : Nat) : is_lower_hex (hexChar n) = true := by
  unfold hexChar
  have h : n % 16 < 16 := Nat.mod_lt _ (by omega)
  revert h
  generalize n % 16 = m
  intro h
  interval_cases m <;> decide

theorem hexOfBytes_lower : ∀ bs : List Nat, (hexOfBytes bs).all is_lower_hex = true
  | [] => rfl
  | b :: bs => by
    rw [hexOfBytes]
    simp [List.all_cons, hexChar_lower, hexOfBytes_lower bs]

/-- C2: a challenge issued by `generate_pow_challenge` carries the
HMAC-SHA256 of `salt.difficulty.timestamp` under the secret as a 64-char
lower-case hex signature, and `verify_pow` never rejects that unmodified
challenge with "Invalid PoW signature." -/
theorem pow_issue_verify_signature_roundtrip (secret salt : String) (difficulty timestamp : ℤ) :
    (generate_pow_challenge secret salt difficulty timestamp).signature =
      bytesToHex (hmacSha256 (strToBytes secret)
        (strToBytes (salt ++ "." ++ toString difficulty ++ "." ++ toString timestamp))) ∧
    (generate_pow_challenge secret salt difficulty timestamp).signature.length = 64 ∧
    (generate_pow_challenge secret salt difficulty timestamp).signature.data.all is_lower_hex = true ∧
    ∀ (now : ℤ) (st : PowState) (nonce : ℤ),
      (verify_pow secret now st salt difficulty timestamp
        (generate_pow_challenge secret salt difficulty timestamp).signature nonce).1 ≠
      some "Invalid PoW signature." := by
  refine ⟨rfl, ?_, ?_, ?_⟩
  · have hsm : ∀ l : List Char, (String.mk l).length = l.length := fun l => rfl
    show (String.mk (hexOfBytes (hmacSha256 (strToBytes secret)
      (strToBytes (pow_payload salt difficulty timestamp))))).length = 64
    rw [hsm, hexOfBytes_length, hmacSha256_length]
  · exact hexOfBytes_lower _
  · intro now st nonce
    simp only [verify_pow, generate_pow_challenge]
    rw [if_pos trivial]
    split_ifs <;> dsimp only <;> decide

/-- C2 witness: a concrete issued challenge passes the signature gate. -/
theorem pow_issue_verify_signature_witness :
    (verify_pow "k" 0 [] "aa" 0 0 (generate_pow_challenge "k" "aa" 0 0).signature 0).1 ≠
      some "Invalid PoW signature." :=
  (pow_issue_verify_signature_roundtrip "k" "aa" 0 0).2.2.2 0 [] 0

/-- C3: for any challenge passing the signature check, `verify_pow`
answers "PoW challenge expired." exactly when `now - timestamp` is
negative or exceeds 300 seconds. -/
theorem pow_freshness_gate_iff (secret : String) (now : ℤ) (st : PowState) (salt : String)
    (difficulty timestamp : ℤ) (signature : String) (nonce : ℤ)
    (hsig : signature = powSign secret (pow_payload salt difficulty timestamp)) :
    ((verify_pow secret now st salt difficulty timestamp signature nonce).1 =
      some "PoW challenge expired.") ↔
    (now - timestamp < 0 ∨ 300 < now - timestamp) := by
  subst hsig
  simp only [verify_pow]
  rw [if_pos trivial]
  by_cases hage : now - timestamp < 0 ∨ now - timestamp > POW_CHALLENGE_TTL
  · have hage' : now - timestamp < 0 ∨ 300 < now - timestamp := by
      simpa [POW_CHALLENGE_TTL, gt_iff_lt] using hage
    rw [if_pos hage]
    exact iff_of_true rfl hage'
  · have hage' : ¬(now - timestamp < 0 ∨ 300 < now - timestamp) := by
      simpa [POW_CHALLENGE_TTL, gt_iff_lt] using hage
    rw [if_neg hage]
    refine iff_of_false ?_ hage'
    split_ifs <;> (try dsimp only) <;> decide

/-- C3 witness: a correctly signed challenge with timestamp 0 presented
at `now = 301` (age 301 > 300) is rejected as expired. -/
theorem pow_freshness_gate_witness :
    (verify_pow POW_SERVER_SECRET 301 [] "aa" 0 0
       (powSign POW_SERVER_SECRET (pow_payload "aa" 0 0)) 0).1 =
      some "PoW challenge expired." :=
  (pow_freshness_gate_iff POW_SERVER_SECRET 301 [] "aa" 0 0
    (powSign POW_SERVER_SECRET (pow_payload "aa" 0 0)) 0 rfl).mpr (by decide)

/-- C1 (code bug): a `(salt, nonce)` pair can verify successfully twice.
A challenge issued at timestamp 0 and first verified at `now = 0` burns
`salt:nonce` until 300; a second call with the very same fields at
`now = 300` purges the ledger entry (its expiry `300 ≤ now`), passes the
freshness check (`age = 300 ≤ 300`), and succeeds again, contradicting
the at-most-once claim and the code's own "cannot be reused" docstring. -/
theorem pow_replay_double_success_at_ttl_boundary :
    (verify_pow POW_SERVER_SECRET 0 [] "aa" 0 0
        (powSign POW_SERVER_SECRET (pow_payload "aa" 0 0)) 0).1 = none ∧
    (verify_pow POW_SERVER_SECRET 300
        (verify_pow POW_SERVER_SECRET 0 [] "aa" 0 0
          (powSign POW_SERVER_SECRET (pow_payload "aa" 0 0)) 0).2 "aa" 0 0
        (powSign POW_SERVER_SECRET (pow_payload "aa" 0 0)) 0).1 = none := by decide

/-! ### Helper lemmas: truncation, rounding, dictionary removal -/

theorem rat_num_ediv_den_bounds (q : ℚ) :
    ((q.num / (q.den : ℤ) : ℤ) : ℚ) ≤ q ∧ q < ((q.num / (q.den : ℤ) : ℤ) : ℚ) + 1 := by
  have hd : (0 : ℤ) < (q.den : ℤ) := by exact_mod_cast q.den_pos
  have hdq : (0 : ℚ) < (q.den : ℚ) := by exact_mod_cast q.den_pos
  constructor
  · nth_rewrite 3 [← Rat.num_div_den q]
    rw [le_div_iff₀ hdq]
    have h := Int.ediv_mul_le q.num (by omega : (q.den : ℤ) ≠ 0)
    exact_mod_cast h
  · nth_rewrite 1 [← Rat.num_div_den q]
    rw [div_lt_iff₀ hdq]
    have h := Int.lt_ediv_add_one_mul_self q.num hd
    exact_mod_cast h

theorem pyInt_nonneg_bounds (q : ℚ) (hq : 0 ≤ q) :
    ((pyInt q : ℤ) : ℚ) ≤ q ∧ q < ((pyInt q : ℤ) : ℚ) + 1 := by
  have heq : pyInt q = q.num / (q.den : ℤ) := by
    obtain ⟨m, hm⟩ := Int.eq_ofNat_of_zero_le (Rat.num_nonneg.mpr hq)
    unfold pyInt
    rw [hm]
    rfl
  rw [heq]
  exact rat_num_ediv_den_bounds q

theorem pyInt_eq_of_bounds (q : ℚ) (z : ℤ) (hq : 0 ≤ q) (h1 : (z : ℚ) ≤ q) (h2 : q < z + 1) :
    pyInt q = z := by
  obtain ⟨hl, hr⟩ := pyInt_nonneg_bounds q hq
  have b1 : z < pyInt q + 1 := by exact_mod_cast lt_of_le_of_lt h1 hr
  have b2 : pyInt q < z + 1 := by exact_mod_cast lt_of_le_of_lt hl h2
  omega

theorem round_nearest_eq (q : ℚ) (z : ℤ) (h1 : (z : ℚ) ≤ q + 1 / 2) (h2 : q + 1 / 2 < z + 1) :
    round_nearest q = z := by
  obtain ⟨hl, hr⟩ := rat_num_ediv_den_bounds (q + 1 / 2)
  have b1 : z < (q + 1 / 2).num / ((q + 1 / 2).den : ℤ) + 1 := by
    exact_mod_cast lt_of_le_of_lt h1 hr
  have b2 : (q + 1 / 2).num / ((q + 1 / 2).den : ℤ) < z + 1 := by
    exact_mod_cast lt_of_le_of_lt hl h2
  unfold round_nearest
  omega

theorem lookup_filter_self {β : Type} (k : String) (l : List (String × β)) :
    List.lookup k (l.filter (fun kv => kv.1 != k)) = none := by
  induction l with
  | nil => rfl
  | cons a l ih =>
    by_cases h : a.1 = k
    · simp [List.filter_cons, h, ih]
    · have hne : (a.1 != k) = true := by simp [bne_iff_ne, h]
      have hke : (k == a.1) = false := beq_eq_false_iff_ne.mpr (fun hk => h hk.symm)
      simp [List.filter_cons, hne, List.lookup, hke, ih]

/-- C8 (amended): the synthetic video-mode session's `solved_value` is
the truncation `int(target * 1000)` — i.e. it satisfies the floor bounds
`solved_value ≤ target·1000 < solved_value + 1` — for every stored target
in `[0.4, 0.8]` (not the nearest-integer rounding the claim states). -/
theorem video_solved_value_truncation_amended (target : ℚ) (fp : Option Fingerprint)
    (t : List TrajectoryPoint) (b : Option BehaviorData)
    (h1 : 2 / 5 ≤ target) (h2 : target ≤ 4 / 5) :
    (((video_temp_session target fp t b).solved_value : ℤ) : ℚ) ≤ target * 1000 ∧
    target * 1000 < (((video_temp_session target fp t b).solved_value : ℤ) : ℚ) + 1 := by
  have hq : (0 : ℚ) ≤ target * 1000 := by nlinarith [h1, h2]
  exact pyInt_nonneg_bounds (target * 1000) hq

/-- C8 witness: target `1/2` lies in `[0.4, 0.8]` and the synthetic
session's value satisfies the truncation bounds. -/
theorem video_solved_value_truncation_witness :
    ((2 / 5 : ℚ) ≤ 1 / 2 ∧ (1 / 2 : ℚ) ≤ 4 / 5) ∧
    (((video_temp_session (1 / 2) none [] none).solved_value : ℤ) : ℚ) ≤ (1 / 2 : ℚ) * 1000 ∧
    (1 / 2 : ℚ) * 1000 < (((video_temp_session (1 / 2) none [] none).solved_value : ℤ) : ℚ) + 1 :=
  ⟨⟨by norm_num, by norm_num⟩,
   video_solved_value_truncation_amended (1 / 2) none [] none (by norm_num) (by norm_num)⟩

/-- C8 counterexample: for the stored target `0.6007 ∈ [0.4, 0.8]` the
code stores `int(0.6007 * 1000) = 600`, while the nearest-integer
rounding of `600.7` the claim demands is `601`. -/
theorem video_solved_value_not_round_counterexample :
    (video_temp_session (6007 / 10000) none [] none).solved_value = 600 ∧
    round_nearest ((6007 / 10000 : ℚ) * 1000) = 601 ∧
    (2 / 5 : ℚ) ≤ 6007 / 10000 ∧ (6007 / 10000 : ℚ) ≤ 4 / 5 := by
  refine ⟨?_, ?_, by norm_num, by norm_num⟩
  · exact pyInt_eq_of_bounds _ 600 (by norm_num) (by norm_num) (by norm_num)
  · exact round_nearest_eq _ 601 (by norm_num) (by norm_num)

/-- C7 (amended): an image session is removed by the first verification
attempt that passes field validation and the PoW gate (in image mode),
whether the puzzle/risk outcome succeeds or fails — afterwards no lookup
of that `captcha_id` can find the session.  Attempts rejected earlier
(missing fields, PoW failure) leave the session in place. -/
theorem image_session_consumed_after_pow_amended (secret : String) (now : ℤ) (st : ServerState)
    (req : VerifyRequest) (cid : String) (sv : ℤ) (salt : String) (nonce d ts : ℤ) (sig : String)
    (h1 : req.captcha_id = some cid) (h2 : req.slider_value = some sv)
    (h3 : req.pow_salt = some salt) (h4 : req.pow_nonce = some nonce)
    (h5 : req.pow_difficulty = some d) (h6 : req.pow_timestamp = some ts)
    (h7 : req.pow_signature = some sig)
    (hpow : (verify_pow secret now st.pow_used_nonces salt d ts sig nonce).1 = none)
    (hmode : ¬ pyLower req.mode = "video") :
    List.lookup cid (verify_captcha secret now st req).2.captcha_sessions = none := by
  simp only [verify_captcha, h1, h2, h3, h4, h5, h6, h7, hpow]
  rw [if_neg hmode]
  rcases hlook : List.lookup cid st.captcha_sessions with - | sess
  · simp only [hlook]
  · simp only [hlook]
    exact lookup_filter_self cid _

/-- C7 witness: a concrete passing-PoW image attempt consumes the
session, leaving a subsequent lookup empty. -/
theorem image_session_consumed_witness :
    List.lookup "id" (verify_captcha POW_SERVER_SECRET 0
      ⟨[("id", ⟨42, none, none, none⟩)], [], []⟩
      ⟨some "id", some 42, "image", none, [], none, some "aa", some 0, some 0, some 0,
        some (powSign POW_SERVER_SECRET (pow_payload "aa" 0 0))⟩).2.captcha_sessions = none :=
  image_session_consumed_after_pow_amended POW_SERVER_SECRET 0
    ⟨[("id", ⟨42, none, none, none⟩)], [], []⟩
    ⟨some "id", some 42, "image", none, [], none, some "aa", some 0, some 0, some 0,
      some (powSign POW_SERVER_SECRET (pow_payload "aa" 0 0))⟩
    "id" 42 "aa" 0 0 0 (powSign POW_SERVER_SECRET (pow_payload "aa" 0 0))
    rfl rfl rfl rfl rfl rfl rfl (by decide) (by decide)

/-- C7 counterexample: an attempt naming the session's `captcha_id` that
is rejected for missing PoW fields does **not** remove the session — a
second attempt still finds it, contradicting removal on the first
attempt. -/
theorem image_session_survives_missing_pow_attempt :
    (verify_captcha POW_SERVER_SECRET 0
        ⟨[("id", ⟨42, none, none, none⟩)], [], []⟩
        ⟨some "id", some 42, "image", none, [], none, none, none, none, none, none⟩).1.error =
      some "Missing PoW fields." ∧
    List.lookup "id"
      (verify_captcha POW_SERVER_SECRET 0
        ⟨[("id", ⟨42, none, none, none⟩)], [], []⟩
        ⟨some "id", some 42, "image", none, [], none, none, none, none, none, none⟩).2.captcha_sessions =
      some ⟨42, none, none, none⟩ := by decide

/-- C4 (amended): after the PoW gate passes, a missing session (image or
video mode) yields `{success: false, error: "Invalid or expired
captcha_id."}` with **no** analysis — the same string for both stores —
while puzzle/risk failures all collapse to the single shape
`{success: false, analysis}` with no error field, not revealing whether
the puzzle check or the risk check rejected. -/
theorem verify_error_collapse_amended (secret : String) (now : ℤ) (st : ServerState)
    (req : VerifyRequest) (cid : String) (sv : ℤ) (salt : String) (nonce d ts : ℤ) (sig : String)
    (h1 : req.captcha_id = some cid) (h2 : req.slider_value = some sv)
    (h3 : req.pow_salt = some salt) (h4 : req.pow_nonce = some nonce)
    (h5 : req.pow_difficulty = some d) (h6 : req.pow_timestamp = some ts)
    (h7 : req.pow_signature = some sig)
    (hpow : (verify_pow secret now st.pow_used_nonces salt d ts sig nonce).1 = none) :
    (pyLower req.mode = "video" → List.lookup cid st.video_captcha_sessions = none →
      (verify_captcha secret now st req).1 = ⟨false, some "Invalid or expired captcha_id.", none⟩) ∧
    (¬ pyLower req.mode = "video" → List.lookup cid st.captcha_sessions = none →
      (verify_captcha secret now st req).1 = ⟨false, some "Invalid or expired captcha_id.", none⟩) ∧
    (∀ sess, ¬ pyLower req.mode = "video" → List.lookup cid st.captcha_sessions = some sess →
      (¬ pyAbs (sv - sess.solved_value) ≤ 3 ∨
        (analyze_bot_risk (attach_telemetry sess req.fingerprint req.parsed_trajectory
          req.parsed_behavior)).is_bot = true) →
      (verify_captcha secret now st req).1 =
        ⟨false, none, some (analyze_bot_risk (attach_telemetry sess req.fingerprint
          req.parsed_trajectory req.parsed_behavior))⟩) ∧
    (∀ ch, pyLower req.mode = "video" → List.lookup cid st.video_captcha_sessions = some ch →
      (¬ pyAbs (ch.secret_target - pyMax 0 (pyMin 1 ((sv : ℚ) / 1000))) ≤ 3 / 100 ∨
        (analyze_bot_risk (video_temp_session ch.secret_target req.fingerprint
          req.parsed_trajectory req.parsed_behavior)).is_bot = true) →
      (verify_captcha secret now st req).1 =
        ⟨false, none, some (analyze_bot_risk (video_temp_session ch.secret_target req.fingerprint
          req.parsed_trajectory req.parsed_behavior))⟩) := by
  refine ⟨?_, ?_, ?_, ?_⟩
  · intro hm hlook
    simp only [verify_captcha, h1, h2, h3, h4, h5, h6, h7, hpow]
    rw [if_pos hm]
    simp only [hlook]
  · intro hm hlook
    simp only [verify_captcha, h1, h2, h3, h4, h5, h6, h7, hpow]
    rw [if_neg hm]
    simp only [hlook]
  · intro sess hm hlook hfail
    simp only [verify_captcha, h1, h2, h3, h4, h5, h6, h7, hpow]
    rw [if_neg hm]
    simp only [hlook]
    have hsucc : (decide (pyAbs (sv - sess.solved_value) ≤ 3) &&
        !(analyze_bot_risk (attach_telemetry sess req.fingerprint req.parsed_trajectory
          req.parsed_behavior)).is_bot) = false := by
      rcases hfail with hf | hf
      · simp [decide_eq_false hf]
      · simp [hf]
    rw [hsucc]
  · intro ch hm hlook hfail
    simp only [verify_captcha, h1, h2, h3, h4, h5, h6, h7, hpow]
    rw [if_pos hm]
    simp only [hlook]
    have hsucc : (decide (pyAbs (ch.secret_target - pyMax 0 (pyMin 1 ((sv : ℚ) / 1000))) ≤ 3 / 100) &&
        !(analyze_bot_risk (video_temp_session ch.secret_target req.fingerprint
          req.parsed_trajectory req.parsed_behavior)).is_bot) = false := by
      rcases hfail with hf | hf
      · simp [decide_eq_false hf]
      · simp [hf]
    rw [hsucc]

/-- C4 witness: after a valid PoW, a wrong slider (100 against solved
value 42) collapses to `{success: false, analysis}` with no error. -/
theorem verify_error_collapse_witness :
    (verify_captcha POW_SERVER_SECRET 0
        ⟨[("id", ⟨42, none, none, none⟩)], [], []⟩
        ⟨some "id", some 100, "image", none, [], none, some "aa", some 0, some 0, some 0,
          some (powSign POW_SERVER_SECRET (pow_payload "aa" 0 0))⟩).1 =
      ⟨false, none, some (analyze_bot_risk (attach_telemetry ⟨42, none, none, none⟩ none [] none))⟩ :=
  (verify_error_collapse_amended POW_SERVER_SECRET 0
    ⟨[("id", ⟨42, none, none, none⟩)], [], []⟩
    ⟨some "id", some 100, "image", none, [], none, some "aa", some 0, some 0, some 0,
      some (powSign POW_SERVER_SECRET (pow_payload "aa" 0 0))⟩
    "id" 100 "aa" 0 0 0 (powSign POW_SERVER_SECRET (pow_payload "aa" 0 0))
    rfl rfl rfl rfl rfl rfl rfl (by decide)).2.2.1 ⟨42, none, none, none⟩ (by decide) (by decide)
    (Or.inl (by decide))

/-- C4 counterexample: a session miss after a valid PoW answers with the
error string "Invalid or expired captcha_id." and **no** analysis —
the response does not collapse to `{success: false}` plus analysis and it
does reveal that the session store rejected the request. -/
theorem verify_session_miss_reveals_error :
    (verify_captcha POW_SERVER_SECRET 0 ⟨[], [], []⟩
        ⟨some "nope", some 42, "image", none, [], none, some "aa", some 0, some 0, some 0,
          some (powSign POW_SERVER_SECRET (pow_payload "aa" 0 0))⟩).1 =
      ⟨false, some "Invalid or expired captcha_id.", none⟩ := by decide
